import Mathlib

/-!
Verification of the "Sai Kaki" chat server.

This file shallowly embeds the server routes and services of the repository:
the streaming chat relay (`POST /api/chat/sessions/:id/messages/stream`), the
non-streaming message route, the regenerate route, and the vision service's
image-generation fallback chain.  External collaborators that are not part of
the sources (the completion provider, the enrichment adapter, the
personal-information filter, the record store's failure behaviour) are driven
by explicit environment records so that every control path of the routes is
representable.
-/

/- ## String helpers

The TypeScript code uses `String.prototype.includes`, `startsWith`,
`toLowerCase`, `substring` and `replace(pat, '')`; we mirror them on the
character lists underlying `String`. -/

/-- Does `pat` occur as a contiguous sublist? -/
def listIsSub (pat : List Char) : List Char → Bool
  | [] => pat.isEmpty
  | c :: rest => pat.isPrefixOf (c :: rest) || listIsSub pat rest

/-- Substring test: JavaScript `s.includes(pat)`. -/
def strContains (s pat : String) : Bool :=
  listIsSub pat.data s.data

/-- JavaScript `s.startsWith(p)`. -/
def strStartsWith (s p : String) : Bool :=
  p.data.isPrefixOf s.data

/-- JavaScript `s.toLowerCase()` (ASCII-level, as used for keyword matching). -/
def strToLower (s : String) : String :=
  ⟨s.data.map Char.toLower⟩

/-- JavaScript `s.substring(0, n)`. -/
def strTake (s : String) (n : Nat) : String :=
  ⟨s.data.take n⟩

/-- Concatenation of a list of strings (the assembled streamed response). -/
def strJoin : List String → String
  | [] => ""
  | s :: rest => s ++ strJoin rest

/-- Remove the first occurrence of `pat` from a character list: the effect of
JavaScript `l.replace(pat, '')` for string patterns. -/
def removeFirstSub (pat : List Char) : List Char → List Char
  | [] => []
  | c :: rest =>
    if pat.isPrefixOf (c :: rest) then (c :: rest).drop pat.length
    else c :: removeFirstSub pat rest

/-- JavaScript `s.replace(pat, '')` (first occurrence only). -/
def jsReplaceEmpty (s pat : String) : String :=
  ⟨removeFirstSub pat.data s.data⟩

lemma list_isPrefixOf_append (p q : List Char) : p.isPrefixOf (p ++ q) = true := by
  induction p with
  | nil => cases q <;> rfl
  | cons c cs ih => simp [List.isPrefixOf, ih]

lemma list_drop_len_append {α : Type} (p q : List α) : (p ++ q).drop p.length = q := by
  induction p with
  | nil => rfl
  | cons c cs ih => simp [ih]

lemma removeFirstSub_append (p q : List Char) : removeFirstSub p (p ++ q) = q := by
  cases hq : p ++ q with
  | nil =>
    rcases List.append_eq_nil.mp hq with ⟨hp, hq2⟩
    subst hp; subst hq2; rfl
  | cons c rest =>
    rw [removeFirstSub, if_pos (by rw [← hq]; exact list_isPrefixOf_append p q),
      ← hq, list_drop_len_append]

lemma strData_append (a b : String) : (a ++ b).data = a.data ++ b.data := rfl

lemma jsReplaceEmpty_append (full suffix : String) :
    jsReplaceEmpty (full ++ suffix) full = suffix := by
  have h : removeFirstSub full.data (full.data ++ suffix.data) = suffix.data :=
    removeFirstSub_append full.data suffix.data
  apply String.ext
  rw [jsReplaceEmpty, strData_append]
  exact h

lemma strAppend_empty (a : String) : a ++ "" = a := by
  apply String.ext
  rw [strData_append]
  exact List.append_nil _

lemma strAppend_assoc (a b c : String) : a ++ b ++ c = a ++ (b ++ c)  := by
  apply String.ext
  rw [strData_append, strData_append, strData_append, strData_append]
  exact List.append_assoc _ _ _

lemma strAppend_right_eq_self (a b : String) : a ++ b = a ↔ b = "" := by
  constructor
  · intro h
    have hd : a.data ++ b.data = a.data := by rw [← strData_append, h]
    have hlen : (a.data ++ b.data).length = a.data.length := by rw [hd]
    rw [List.length_append] at hlen
    have : b.data.length = 0 := by omega
    exact String.ext (List.eq_nil_of_length_eq_zero this)
  · intro h; rw [h]; exact strAppend_empty a

lemma strStartsWith_append (p r : String) : strStartsWith (p ++ r) p = true := by
  rw [strStartsWith, strData_append]
  exact list_isPrefixOf_append p.data r.data

/- ## Data model (shared/schema) -/

/-- Free-form ChatMessage metadata; the keys actually written by the routes. -/
structure Metadata where
  originalLength : Option Nat := none
  userMessageId : Option Nat := none
  enhanced : Option Bool := none
  streamed : Option Bool := none
  error : Option Bool := none
  regenerated : Option Bool := none
  originalMessageId : Option Nat := none
deriving Repr, DecidableEq

/-- A persisted chat message row. -/
structure ChatMessage where
  id : Nat
  sessionId : String
  role : String
  content : String
  metadata : Metadata
deriving Repr, DecidableEq

/-- The record store: messages in creation order, plus the next fresh id. -/
structure Store where
  msgs : List ChatMessage
  nextId : Nat
deriving Repr, DecidableEq

/-- The message row built by `storage.createChatMessage`. -/
def newMsg (st : Store) (sid role content : String) (md : Metadata) : ChatMessage :=
  ⟨st.nextId, sid, role, content, md⟩

/-- `storage.createChatMessage`: append a fresh row. -/
def addMsg (st : Store) (sid role content : String) (md : Metadata) : Store :=
  ⟨st.msgs ++ [newMsg st sid role content md], st.nextId + 1⟩

/-- `storage.getSessionMessages`: rows of one session in creation order. -/
def getSessionMessages (st : Store) (sid : String) : List ChatMessage :=
  st.msgs.filter (fun m => m.sessionId == sid)

/-- Number of persisted assistant rows. -/
def countAssistant (st : Store) : Nat :=
  (st.msgs.filter (fun m => m.role == "assistant")).length

/- ## Vision service: base64 and the SVG fallback (services/vision.ts) -/

/-- UTF-8 encoding of one code point. -/
def utf8Bytes (c : Char) : List Nat :=
  let n := c.toNat
  if n < 128 then [n]
  else if n < 2048 then [192 + n / 64, 128 + n % 64]
  else if n < 65536 then [224 + n / 4096, 128 + n / 64 % 64, 128 + n % 64]
  else [240 + n / 262144, 128 + n / 4096 % 64, 128 + n / 64 % 64, 128 + n % 64]

/-- UTF-8 bytes of a string (what `Buffer.from(svg)` holds). -/
def strUtf8 (s : String) : List Nat :=
  s.data.foldr (fun c acc => utf8Bytes c ++ acc) []

/-- The base64 alphabet. -/
def b64Char (n : Nat) : Char :=
  "ABCDEFGHIJKLMNOPQRSTUVWXYZabcdefghijklmnopqrstuvwxyz0123456789+/".data.getD n 'A'

/-- RFC 4648 base64 of a byte list: `Buffer.toString('base64')`. -/
def base64Encode : List Nat → String
  | [] => ""
  | [a] => ⟨[b64Char (a / 4), b64Char (a % 4 * 16), '=', '=']⟩
  | [a, b] => ⟨[b64Char (a / 4), b64Char (a % 4 * 16 + b / 16), b64Char (b % 16 * 4), '=']⟩
  | a :: b :: c :: rest =>
    (⟨[b64Char (a / 4), b64Char (a % 4 * 16 + b / 16), b64Char (b % 16 * 4 + c / 64),
       b64Char (c % 64)]⟩ : String) ++ base64Encode rest

namespace Vision

/-- The detailed tomato SVG template of `createEnhancedSVGImage` (fixed text). -/
def svgTomato : String :=
  "<svg width=\"800\" height=\"800\" xmlns=\"http://www.w3.org/2000/svg\">" ++
  "<defs><radialGradient id=\"tomatoGrad\" cx=\"0.3\" cy=\"0.3\">" ++
  "<stop offset=\"0%\" style=\"stop-color:#FF6B6B\"/>" ++
  "<stop offset=\"70%\" style=\"stop-color:#DC2626\"/>" ++
  "<stop offset=\"100%\" style=\"stop-color:#B91C1C\"/></radialGradient>" ++
  "<radialGradient id=\"leafGrad\" cx=\"0.3\" cy=\"0.3\">" ++
  "<stop offset=\"0%\" style=\"stop-color:#10B981\"/>" ++
  "<stop offset=\"100%\" style=\"stop-color:#059669\"/></radialGradient>" ++
  "<filter id=\"shadow\" x=\"-20%\" y=\"-20%\" width=\"140%\" height=\"140%\">" ++
  "<feDropShadow dx=\"6\" dy=\"8\" stdDeviation=\"12\" flood-color=\"#000\" flood-opacity=\"0.3\"/>" ++
  "</filter></defs>" ++
  "<rect width=\"800\" height=\"800\" fill=\"linear-gradient(135deg, #FEF2F2 0%, #FECACA 100%)\"/>" ++
  "<ellipse cx=\"400\" cy=\"450\" rx=\"200\" ry=\"220\" fill=\"url(#tomatoGrad)\" filter=\"url(#shadow)\"/>" ++
  "<path d=\"M 300 350 Q 400 320 500 350 Q 450 400 400 420 Q 350 400 300 350\" fill=\"#EF4444\" opacity=\"0.6\"/>" ++
  "<path d=\"M 320 500 Q 400 480 480 500 Q 450 550 400 570 Q 350 550 320 500\" fill=\"#EF4444\" opacity=\"0.6\"/>" ++
  "<ellipse cx=\"400\" cy=\"280\" rx=\"60\" ry=\"40\" fill=\"url(#leafGrad)\"/>" ++
  "<path d=\"M 370 260 Q 350 240 365 220 Q 380 235 375 250\" fill=\"url(#leafGrad)\"/>" ++
  "<path d=\"M 430 260 Q 450 240 435 220 Q 420 235 425 250\" fill=\"url(#leafGrad)\"/>" ++
  "<path d=\"M 400 250 Q 385 230 400 210 Q 415 230 400 250\" fill=\"url(#leafGrad)\"/>" ++
  "<ellipse cx=\"350\" cy=\"380\" rx=\"40\" ry=\"60\" fill=\"#FECACA\" opacity=\"0.8\"/>" ++
  "<text x=\"400\" y=\"720\" font-family=\"Arial, sans-serif\" font-size=\"36\" text-anchor=\"middle\" fill=\"#DC2626\" font-weight=\"bold\">Fresh Tomato</text>" ++
  "<text x=\"400\" y=\"760\" font-family=\"Arial, sans-serif\" font-size=\"18\" text-anchor=\"middle\" fill=\"#B91C1C\" opacity=\"0.8\">Generated by Sai Kaki AI</text>" ++
  "</svg>"

/-- The default SVG template of `createEnhancedSVGImage`, with the template
interpolations made explicit parameters. -/
def svgDefault (primaryColor secondaryColor emoji prompt : String) : String :=
  "<svg width=\"800\" height=\"800\" xmlns=\"http://www.w3.org/2000/svg\">" ++
  "<defs><linearGradient id=\"bg\" x1=\"0%\" y1=\"0%\" x2=\"100%\" y2=\"100%\">" ++
  "<stop offset=\"0%\" style=\"stop-color:" ++ primaryColor ++ ";stop-opacity:0.8\" />" ++
  "<stop offset=\"100%\" style=\"stop-color:" ++ secondaryColor ++ ";stop-opacity:0.3\" />" ++
  "</linearGradient>" ++
  "<filter id=\"shadow\" x=\"-20%\" y=\"-20%\" width=\"140%\" height=\"140%\">" ++
  "<feDropShadow dx=\"4\" dy=\"4\" stdDeviation=\"8\" flood-color=\"" ++ primaryColor ++
  "\" flood-opacity=\"0.3\"/></filter></defs>" ++
  "<rect width=\"800\" height=\"800\" fill=\"url(#bg)\"/>" ++
  "<circle cx=\"400\" cy=\"400\" r=\"300\" fill=\"" ++ primaryColor ++
  "\" opacity=\"0.1\" filter=\"url(#shadow)\"/>" ++
  "<text x=\"400\" y=\"450\" font-family=\"Arial, sans-serif\" font-size=\"200\" text-anchor=\"middle\" fill=\"" ++
  primaryColor ++ "\">" ++ emoji ++ "</text>" ++
  "<text x=\"400\" y=\"580\" font-family=\"Arial, sans-serif\" font-size=\"36\" text-anchor=\"middle\" fill=\"" ++
  primaryColor ++ "\" opacity=\"0.9\">AI Generated</text>" ++
  "<text x=\"400\" y=\"620\" font-family=\"Arial, sans-serif\" font-size=\"24\" text-anchor=\"middle\" fill=\"" ++
  primaryColor ++ "\" opacity=\"0.7\">" ++ strTake prompt 40 ++
  (if prompt.length > 40 then "..." else "") ++ "</text>" ++
  "<text x=\"400\" y=\"720\" font-family=\"Arial, sans-serif\" font-size=\"18\" text-anchor=\"middle\" fill=\"" ++
  primaryColor ++ "\" opacity=\"0.6\">Created by Sai Kaki AI</text>" ++
  "</svg>"

/-- `createEnhancedSVGImage` (services/vision.ts): keyword-themed local SVG
placeholder, returned as a base64 data URI. -/
def createEnhancedSVGImage (prompt : String) : String :=
  let words := strToLower prompt
  let svg :=
    if strContains words "tomato" || strContains words "tomatoes" then svgTomato
    else if strContains words "cat" then svgDefault "#F59E0B" "#FFFBEB" "🐱" prompt
    else if strContains words "flower" then svgDefault "#EC4899" "#FDF2F8" "🌸" prompt
    else if strContains words "fruit" then svgDefault "#EF4444" "#FEF2F2" "🍎" prompt
    else svgDefault "#4F46E5" "#F3F4F6" "🖼️" prompt
  "data:image/svg+xml;base64," ++ base64Encode (strUtf8 svg)

/-- Outcomes of the three external generators of `generateImage`
(services/vision.ts): each either yields an image string or throws. -/
structure VisionEnv where
  pollinations : Except String String
  huggingFace : Except String String
  unsplash : Except String String
deriving Repr

/-- Result of a `generateImage` call, instrumented with the ordered list of
generator names that were actually invoked. -/
structure VisionResult where
  result : String
  invoked : List String
deriving Repr, DecidableEq

/-- The fallback loop of `generateImage`: try each named generator in order,
return the first success, recording every generator invoked. -/
def tryGenerators :
    List (String × Except String String) → List String →
      Option (String × String) × List String
  | [], invoked => (none, invoked)
  | (n, r) :: rest, invoked =>
    match r with
    | Except.ok v => (some (n, v), invoked ++ [n])
    | Except.error _ => tryGenerators rest (invoked ++ [n])

/-- `generateImage` (services/vision.ts): ordered fallback over the three
generators, then the local SVG placeholder if every generator failed. -/
def generateImage (env : VisionEnv) (prompt : String) : VisionResult :=
  let generators := [("Pollinations AI", env.pollinations),
                     ("Hugging Face AI", env.huggingFace),
                     ("Unsplash Themed", env.unsplash)]
  match tryGenerators generators [] with
  | (some (_, v), invoked) => { result := v, invoked := invoked }
  | (none, invoked) => { result := createEnhancedSVGImage prompt, invoked := invoked }

end Vision

namespace Part000

/-- The fixed failure text thrown by `generateImage` in the older vision module
when every service failed. -/
def picassoText : String :=
  "Sorry, my artistic talents are offline right now! Even Picasso had bad days. 🎨"

/-- `generateImage` of the older vision module: Pollinations, then Hugging
Face, then the Picsum placeholder; if all three throw, throw one fixed error. -/
def generateImage (poll hf placeholder : Except String String) : Except String String :=
  match poll with
  | Except.ok v => Except.ok v
  | Except.error _ =>
    match hf with
    | Except.ok v => Except.ok v
    | Except.error _ =>
      match placeholder with
      | Except.ok v => Except.ok v
      | Except.error _ => Except.error picassoText

end Part000

/- ## Claims about the image-generation fallback orchestration -/

lemma tryGenerators_all_fail (l : List (String × Except String String))
    (acc : List String) (h : ∀ p ∈ l, ∃ e, p.2 = Except.error e) :
    Vision.tryGenerators l acc = (none, acc ++ l.map Prod.fst) := by
  induction l generalizing acc with
  | nil => simp [Vision.tryGenerators]
  | cons p rest ih =>
    obtain ⟨e, he⟩ := h p (by simp)
    obtain ⟨pn, pr⟩ := p
    dsimp at he
    subst he
    rw [Vision.tryGenerators, ih _ (fun q hq => h q (by simp [hq]))]
    simp

/-- Claim C6: in the ordered fallback loop of `generateImage`, providers are
invoked strictly in list order, the first provider that succeeds returns its
value as the result, and no provider after the first success is invoked (the
invocation log is exactly the failing prefix followed by the successful
provider). -/
theorem generateImage_first_success
    (pre : List (String × Except String String)) (n v : String)
    (post : List (String × Except String String)) (acc : List String)
    (hpre : ∀ p ∈ pre, ∃ e, p.2 = Except.error e) :
    Vision.tryGenerators (pre ++ (n, Except.ok v) :: post) acc =
      (some (n, v), acc ++ pre.map Prod.fst ++ [n]) := by
  induction pre generalizing acc with
  | nil => simp [Vision.tryGenerators]
  | cons p rest ih =>
    obtain ⟨e, he⟩ := hpre p (by simp)
    obtain ⟨pn, pr⟩ := p
    dsimp at he
    subst he
    rw [List.cons_append, Vision.tryGenerators,
      ih _ (fun q hq => hpre q (by simp [hq]))]
    simp

/-- Witness for C6, the spec's own example: `p1` fails, `p2` succeeds with
`"X"`, and `p3` is never invoked. -/
theorem generateImage_first_success_witness :
    Vision.tryGenerators
        [("p1", Except.error "boom"), ("p2", Except.ok "X"), ("p3", Except.ok "Y")] [] =
      (some ("p2", "X"), ["p1", "p2"]) := by
  have h := generateImage_first_success [("p1", Except.error "boom")] "p2" "X"
    [("p3", Except.ok "Y")] []
    (by intro p hp; simp at hp; subst hp; exact ⟨"boom", rfl⟩)
  simpa using h

/-- Claim C7 counterexample: when every provider of the older vision module's
`generateImage` fails, the raised failure is the fixed apologetic text, which
references none of the failed providers' names — contradicting the claim that
the aggregate failure references the names of all the failed providers. -/
theorem aggregate_failure_names_cex :
    Part000.generateImage (Except.error "a") (Except.error "b") (Except.error "c") =
        Except.error Part000.picassoText ∧
      strContains Part000.picassoText "Pollinations" = false ∧
      strContains Part000.picassoText "Hugging Face" = false ∧
      strContains Part000.picassoText "Picsum" = false := by
  refine ⟨rfl, ?_, ?_, ?_⟩ <;> decide

/-- Claim C7 as amended: if every provider fails, `generateImage` raises one
single failure whose message is the fixed apologetic text, and that text does
not reference the providers by name. -/
theorem aggregate_failure_fixed_text (e1 e2 e3 : String) :
    Part000.generateImage (Except.error e1) (Except.error e2) (Except.error e3) =
        Except.error Part000.picassoText ∧
      strContains Part000.picassoText "Pollinations" = false :=
  ⟨rfl, by decide⟩

lemma createEnhancedSVGImage_startsWith (prompt : String) :
    strStartsWith (Vision.createEnhancedSVGImage prompt)
      "data:image/svg+xml;base64," = true := by
  unfold Vision.createEnhancedSVGImage
  exact strStartsWith_append _ _

/-- Claim C10: the vision service's `generateImage` is total — every provider
throw is caught by the fallback loop — and when all three external providers
fail it returns the locally synthesized SVG placeholder, a string beginning
with `data:image/svg+xml;base64,`. -/
theorem generateImage_svg_fallback (env : Vision.VisionEnv) (prompt : String)
    (h1 : ∃ e, env.pollinations = Except.error e)
    (h2 : ∃ e, env.huggingFace = Except.error e)
    (h3 : ∃ e, env.unsplash = Except.error e) :
    strStartsWith (Vision.generateImage env prompt).result
      "data:image/svg+xml;base64," = true := by
  obtain ⟨e1, he1⟩ := h1
  obtain ⟨e2, he2⟩ := h2
  obtain ⟨e3, he3⟩ := h3
  rw [Vision.generateImage]
  have hall := tryGenerators_all_fail
    [("Pollinations AI", env.pollinations), ("Hugging Face AI", env.huggingFace),
     ("Unsplash Themed", env.unsplash)] []
    (by
      intro p hp
      simp at hp
      rcases hp with hp | hp | hp <;> subst hp
      · exact ⟨e1, he1⟩
      · exact ⟨e2, he2⟩
      · exact ⟨e3, he3⟩)
  rw [hall]
  exact createEnhancedSVGImage_startsWith prompt

/-- Concrete all-fail environment for the C10 witness. -/
def c10Env : Vision.VisionEnv :=
  ⟨Except.error "down", Except.error "down", Except.error "down"⟩

/-- Witness for C10 at a concrete all-fail environment. -/
theorem generateImage_svg_fallback_witness :
    strStartsWith (Vision.generateImage c10Env "a tomato").result
      "data:image/svg+xml;base64," = true :=
  generateImage_svg_fallback c10Env "a tomato" ⟨"down", rfl⟩ ⟨"down", rfl⟩ ⟨"down", rfl⟩

/- ## Modelled collaborator adapters

`services/openai.ts` and `services/websearch.ts` are not among the sources;
only their callers are.  Their contracts are taken from the spec. -/

/-- Modelled from the spec: the Completion Provider Adapter's streaming call
(`generateSarcasticResponseStream`, services/openai.ts, missing from the
sources) "invokes a callback per text fragment and returns the assembled
string on completion" — the assembled string is the concatenation of the
fragments it delivered. -/
def generateSarcasticResponseStream (chunks : List String) : String :=
  strJoin chunks

/-- Modelled from the spec: the Enrichment Adapter
(`enhanceResponseWithWebData`, services/websearch.ts, missing from the
sources) "optionally appends live data (e.g., search snippets) to the reply;
returns the original string unchanged if no enrichment applies" — the appended
suffix is environment-driven, `""` when no enrichment applies. -/
def enhanceResponseWithWebData (draft suffix : String) : String :=
  draft ++ suffix

/- ## Non-streaming message route (part_003, POST /api/chat/sessions/:id/messages) -/

/-- Environment of one non-streaming turn: the request payload plus the
behaviour of the fallible collaborators (the personal-information filter, the
blocking completion call, the enrichment adapter). -/
structure MsgEnv where
  sessionId : String
  content : String
  role : String
  filterOk : Bool
  filtered : String
  genOk : Bool
  genResp : String
  enrichOk : Bool
  enrichSuffix : String
deriving Repr, DecidableEq

/-- Result of a non-streaming turn: HTTP status and the record store. -/
structure MsgResult where
  status : Nat
  store : Store
deriving Repr, DecidableEq

/-- The fixed apologetic text persisted by the non-streaming route's catch-all. -/
def chatErrorText : String :=
  "Oops! Even I can't fix that mess. My circuits are having a moment. Try again, genius. 🤖💥"

/-- The catch-all of the non-streaming route: persist an assistant error row
for the session and answer 500. -/
def msgCatch (st : Store) (sid : String) : MsgResult :=
  { status := 500, store := addMsg st sid "assistant" chatErrorText { error := some true } }

/-- `POST /api/chat/sessions/:id/messages` (part_003 lines 250-325): validate
with zod, filter the content, persist the user row, build the (unused here)
history window, run the blocking completion and enrichment, persist the
assistant row.  Every thrown error lands in the catch-all `msgCatch`; the
session-timestamp update touches no message rows. -/
def runMessage (st0 : Store) (env : MsgEnv) : MsgResult :=
  if env.content = "" ∨ env.role ≠ "user" then msgCatch st0 env.sessionId
  else if env.filterOk = false then msgCatch st0 env.sessionId
  else
    let userMsg := newMsg st0 env.sessionId "user" env.filtered
      { originalLength := some env.content.length }
    let st1 := addMsg st0 env.sessionId "user" env.filtered
      { originalLength := some env.content.length }
    let msgs := getSessionMessages st1 env.sessionId
    let _conversationHistory := (msgs.drop (msgs.length - 10)).map fun m => (m.role, m.content)
    if env.genOk = false then msgCatch st1 env.sessionId
    else if env.enrichOk = false then msgCatch st1 env.sessionId
    else
      let aiResponse := enhanceResponseWithWebData env.genResp env.enrichSuffix
      let st2 := addMsg st1 env.sessionId "assistant" aiResponse
        { userMessageId := some userMsg.id,
          enhanced := some (strContains aiResponse "*Real-time info") }
      { status := 200, store := st2 }

/-- Empty store for the C5 counterexample. -/
def c5Store : Store := ⟨[], 0⟩

/-- Invalid payload (empty content) for the C5 counterexample. -/
def c5Env : MsgEnv :=
  { sessionId := "s1", content := "", role := "user", filterOk := true,
    filtered := "", genOk := true, genResp := "r", enrichOk := true,
    enrichSuffix := "" }

/-- Claim C5 counterexample: a payload failing validation (empty content) is
not rejected before side effects with a 4xx response — the route's catch-all
persists one assistant ChatMessage row and answers status 500. -/
theorem validation_before_side_effects_cex :
    (runMessage c5Store c5Env).status = 500 ∧
      (runMessage c5Store c5Env).store.msgs.length = 1 := by
  decide

/-- Claim C5 as amended: for every turn whose payload fails validation (empty
content or role other than the literal "user"), no user-role ChatMessage is
persisted; instead the catch-all persists exactly one assistant error row
(fixed text, `metadata.error = true`) and the response status is 500, not 4xx. -/
theorem validation_catch_all (st0 : Store) (env : MsgEnv)
    (hbad : env.content = "" ∨ env.role ≠ "user") :
    (runMessage st0 env).status = 500 ∧
      (runMessage st0 env).store.msgs =
        st0.msgs ++
          [newMsg st0 env.sessionId "assistant" chatErrorText { error := some true }] ∧
      (newMsg st0 env.sessionId "assistant" chatErrorText { error := some true }).role =
        "assistant" := by
  rw [runMessage, if_pos hbad]
  exact ⟨rfl, rfl, rfl⟩

/-- Store for the C5 witness. -/
def c5wStore : Store := ⟨[], 0⟩

/-- Invalid payload (role not "user") for the C5 witness. -/
def c5wEnv : MsgEnv :=
  { sessionId := "s1", content := "hello", role := "system", filterOk := true,
    filtered := "hello", genOk := true, genResp := "r", enrichOk := true,
    enrichSuffix := "" }

/-- Witness for the amended C5 at a concrete invalid payload. -/
theorem validation_catch_all_witness :
    (runMessage c5wStore c5wEnv).status = 500 ∧
      (runMessage c5wStore c5wEnv).store.msgs =
        c5wStore.msgs ++
          [newMsg c5wStore "s1" "assistant" chatErrorText { error := some true }] ∧
      (newMsg c5wStore "s1" "assistant" chatErrorText { error := some true }).role =
        "assistant" :=
  validation_catch_all c5wStore c5wEnv (Or.inr (by decide))

/- ## Regenerate route (routes.ts / part_003, POST /api/chat/sessions/:id/regenerate) -/

/-- Environment of one regenerate call: behaviour of the blocking completion
call and of the enrichment adapter. -/
structure RegenEnv where
  genOk : Bool
  genResp : String
  enrichOk : Bool
  enrichSuffix : String
deriving Repr, DecidableEq

/-- Result of a regenerate call: HTTP status and the record store. -/
structure RegenResult where
  status : Nat
  store : Store
deriving Repr, DecidableEq

/-- `POST /api/chat/sessions/:id/regenerate`: 400 when the session has fewer
than 2 messages or no user message; otherwise regenerate from the most recent
user message and append a new assistant row tagged `regenerated`, leaving all
existing rows untouched.  Provider or enrichment failures answer 500 with no
store change. -/
def runRegenerate (st : Store) (sid : String) (env : RegenEnv) : RegenResult :=
  let messages := getSessionMessages st sid
  if messages.length < 2 then { status := 400, store := st }
  else
    match (messages.filter (fun m => m.role == "user")).getLast? with
    | none => { status := 400, store := st }
    | some lastUserMessage =>
      let _conversationHistory :=
        ((messages.dropLast).drop (messages.dropLast.length - 10)).map
          fun m => (m.role, m.content)
      if env.genOk = false then { status := 500, store := st }
      else if env.enrichOk = false then { status := 500, store := st }
      else
        { status := 200,
          store := addMsg st sid "assistant"
            (enhanceResponseWithWebData env.genResp env.enrichSuffix)
            { regenerated := some true, originalMessageId := some lastUserMessage.id } }

lemma getLast?_ne_none {α : Type} : ∀ l : List α, l ≠ [] → l.getLast? ≠ none
  | [], h => absurd rfl h
  | [_], _ => by simp
  | a :: b :: t, _ => by
    rw [List.getLast?_cons_cons]
    exact getLast?_ne_none (b :: t) (by simp)

lemma mem_of_getLast?_eq {α : Type} :
    ∀ {l : List α} {a : α}, l.getLast? = some a → a ∈ l
  | [], a, h => by simp [List.getLast?] at h
  | [b], a, h => by
    simp [List.getLast?] at h
    simp [h]
  | b :: c :: t, a, h => by
    rw [List.getLast?_cons_cons] at h
    exact List.mem_cons_of_mem b (mem_of_getLast?_eq h)

/-- Claim C8: on a session with at least 2 messages and at least one user-role
message, `regenerate` (with the completion and enrichment calls succeeding)
answers 200 and appends exactly one new assistant ChatMessage carrying
`metadata.regenerated = true` and referencing the most recent user message's
id, leaving every existing row (in particular the prior assistant message)
unchanged; with fewer than 2 messages or no user message it answers 400 and
persists nothing. -/
theorem regenerate_additive (st : Store) (sid : String) (env : RegenEnv) :
    (2 ≤ (getSessionMessages st sid).length →
      (∃ m ∈ getSessionMessages st sid, m.role = "user") →
      env.genOk = true → env.enrichOk = true →
      ∃ lastU,
        ((getSessionMessages st sid).filter (fun m => m.role == "user")).getLast? =
            some lastU ∧
          lastU.role = "user" ∧
          (runRegenerate st sid env).status = 200 ∧
          (runRegenerate st sid env).store.msgs =
            st.msgs ++
              [newMsg st sid "assistant"
                (enhanceResponseWithWebData env.genResp env.enrichSuffix)
                { regenerated := some true, originalMessageId := some lastU.id }]) ∧
    (((getSessionMessages st sid).length < 2 ∨
        ∀ m ∈ getSessionMessages st sid, m.role ≠ "user") →
      (runRegenerate st sid env).status = 400 ∧ (runRegenerate st sid env).store = st) := by
  constructor
  · intro hlen huser hg he
    obtain ⟨m, hm, hrole⟩ := huser
    have hmem : m ∈ (getSessionMessages st sid).filter (fun m => m.role == "user") :=
      List.mem_filter.mpr ⟨hm, by simp [hrole]⟩
    have hne : (getSessionMessages st sid).filter (fun m => m.role == "user") ≠ [] :=
      List.ne_nil_of_mem hmem
    cases hlast : ((getSessionMessages st sid).filter (fun m => m.role == "user")).getLast? with
    | none => exact absurd hlast (getLast?_ne_none _ hne)
    | some lastU =>
      have hlastrole : lastU.role = "user" := by
        have hmem2 : lastU ∈ (getSessionMessages st sid).filter (fun m => m.role == "user") :=
          mem_of_getLast?_eq hlast
        simpa using (List.mem_filter.mp hmem2).2
      have hnl : ¬ (getSessionMessages st sid).length < 2 := Nat.not_lt.mpr hlen
      refine ⟨lastU, rfl, hlastrole, ?_, ?_⟩ <;>
        simp [runRegenerate, hnl, hlast, hg, he, addMsg]
  · intro hbad
    by_cases hlen : (getSessionMessages st sid).length < 2
    · rw [runRegenerate, if_pos hlen]
      exact ⟨rfl, rfl⟩
    · have hnouser : ∀ m ∈ getSessionMessages st sid, m.role ≠ "user" := by
        rcases hbad with h | h
        · exact absurd h hlen
        · exact h
      have hfil : (getSessionMessages st sid).filter (fun m => m.role == "user") = [] := by
        rw [List.filter_eq_nil_iff]
        intro a ha
        simp [hnouser a ha]
      rw [runRegenerate, if_neg hlen, hfil]
      exact ⟨rfl, rfl⟩

/-- Store for the C8 witness: the spec's example session `[user "A",
assistant "B"]`. -/
def c8Store : Store :=
  ⟨[⟨0, "s", "user", "A", {}⟩, ⟨1, "s", "assistant", "B", {}⟩], 2⟩

/-- Collaborator behaviour for the C8 witness. -/
def c8Env : RegenEnv := ⟨true, "B2", true, ""⟩

/-- Witness for C8 at the spec's example: a third, additive assistant message
tagged `regenerated` appears and "B" is untouched. -/
theorem regenerate_additive_witness :
    ∃ lastU,
      ((getSessionMessages c8Store "s").filter (fun m => m.role == "user")).getLast? =
          some lastU ∧
        lastU.role = "user" ∧
        (runRegenerate c8Store "s" c8Env).status = 200 ∧
        (runRegenerate c8Store "s" c8Env).store.msgs =
          c8Store.msgs ++
            [newMsg c8Store "s" "assistant" (enhanceResponseWithWebData "B2" "")
              { regenerated := some true, originalMessageId := some lastU.id }] :=
  (regenerate_additive c8Store "s" c8Env).1 (by decide)
    ⟨⟨0, "s", "user", "A", {}⟩, by decide, rfl⟩ rfl rfl

/- ## Streaming route (part_003, POST /api/chat/sessions/:id/messages/stream)

One turn of the stream relay is a straight-line handler whose awaited calls
are numbered as suspension points: 1 = the personal-information filter,
2 = persisting the user row, 3 = fetching the history, 4+i = delivery of the
i-th provider chunk, then (with `tS = 4 + chunks.length`) tS+1 = enrichment,
tS+2 = persisting the assistant row, tS+3 = the session-timestamp update, and
an error-path persist takes one further point.  A client disconnect at
suspension point `k` makes the `responseComplete` flag read true at every
point from `k` on. -/

/-- Events written to the SSE channel.  `done` never occurs in the source; it
is included so that statements about `done` events are expressible. -/
inductive SseEvent where
  | connected
  | userMessage (m : ChatMessage)
  | aiChunk (chunk : String) (messageId : String)
  | aiComplete (m : ChatMessage) (tempId : String)
  | error (msg : String)
  | done
deriving Repr, DecidableEq

/-- Whether the client has disconnected by suspension point `t`. -/
def disc (d : Option Nat) (t : Nat) : Bool :=
  match d with
  | none => false
  | some k => decide (k ≤ t)

/-- Environment of one streaming turn: request payload, disconnect time, and
the behaviour of every fallible collaborator call of the route. -/
structure StreamEnv where
  sessionId : String
  content : String
  role : String
  now : Nat
  disconnectAt : Option Nat
  filterOk : Bool
  filtered : String
  saveUserOk : Bool
  historyOk : Bool
  chunks : List String
  streamOk : Bool
  enrichOk : Bool
  enrichSuffix : String
  saveAiOk : Bool
  updateOk : Bool
  saveErrOk : Bool
deriving Repr, DecidableEq

/-- Result of one streaming turn: the channel writes in order (each with the
value of the `responseComplete` flag at the instant of the write), the record
store, the number of blocking completion calls made, and the number of
`res.end()` calls. -/
structure StreamResult where
  events : List (SseEvent × Bool)
  store : Store
  blockingCalls : Nat
  endCount : Nat
deriving Repr, DecidableEq

/-- The channel writes of the provider's chunk callback, starting at
suspension point `t`: each delivery appends an `aiChunk` event unless the
`responseComplete` flag is set. -/
def chunkEvs (d : Option Nat) (mid : String) : List String → Nat → List (SseEvent × Bool)
  | [], _ => []
  | c :: cs, t =>
    (if disc d t then [] else [(SseEvent.aiChunk c mid, false)]) ++ chunkEvs d mid cs (t + 1)

/-- The fixed apologetic text persisted by the stream route's inner catch. -/
def streamErrorText : String :=
  "Oops! My circuits are having a moment. Even I can't fix that mess right now. Try again, genius! 🤖💥"

/-- The error event written by the stream route's outer catch (without
checking the `responseComplete` flag). -/
def outerErrorEvent (flag : Bool) : SseEvent × Bool :=
  (SseEvent.error "Failed to process streaming message", flag)

/-- The inner catch of the stream route, entered at suspension point `tErr`:
if `responseComplete` is unset it persists the fixed error row (one more
suspension point) and then writes an `aiComplete` carrying it — without
re-checking the flag after the persist — sets the flag and ends; if the
error-row persist itself throws, control reaches the outer catch. -/
def innerCatch (env : StreamEnv) (uid : Nat) (mid : String)
    (evs : List (SseEvent × Bool)) (st : Store) (tErr : Nat) : StreamResult :=
  if disc env.disconnectAt tErr then
    { events := evs, store := st, blockingCalls := 0, endCount := 0 }
  else if env.saveErrOk = false then
    { events := evs ++ [outerErrorEvent (disc env.disconnectAt (tErr + 1))],
      store := st, blockingCalls := 0, endCount := 1 }
  else
    { events := evs ++
        [(SseEvent.aiComplete
            (newMsg st env.sessionId "assistant" streamErrorText
              { error := some true, userMessageId := some uid }) mid,
          disc env.disconnectAt (tErr + 1))],
      store := addMsg st env.sessionId "assistant" streamErrorText
        { error := some true, userMessageId := some uid },
      blockingCalls := 0, endCount := 1 }

/-- The part of the stream route from the history fetch onward (part_003
lines 123-224), once the user row `uid` is persisted in `st1`.  Its `events`
are the channel writes issued after the `userMessage` write; the caller
prepends the `connected` and guarded `userMessage` writes. -/
def streamBody (env : StreamEnv) (uid : Nat) (mid : String) (st1 : Store) : StreamResult :=
  let d := env.disconnectAt
  if env.historyOk = false then
    { events := [outerErrorEvent (disc d 3)], store := st1,
      blockingCalls := 0, endCount := 1 }
  else
    let msgs := getSessionMessages st1 env.sessionId
    let _conversationHistory :=
      (msgs.drop (msgs.length - 10)).map fun m => (m.role, m.content)
    let e2 := chunkEvs d mid env.chunks 4
    let tS := 4 + env.chunks.length
    if env.streamOk = false then innerCatch env uid mid e2 st1 tS
    else
      let fullAiResponse := generateSarcasticResponseStream env.chunks
      if disc d tS then
        { events := e2, store := st1, blockingCalls := 0, endCount := 0 }
      else if env.enrichOk = false then
        innerCatch env uid mid e2 st1 (tS + 1)
      else
        let enhancedResponse := enhanceResponseWithWebData fullAiResponse env.enrichSuffix
        let e3 :=
          if enhancedResponse ≠ fullAiResponse ∧ disc d (tS + 1) = false then
            e2 ++ [(SseEvent.aiChunk (jsReplaceEmpty enhancedResponse fullAiResponse)
              mid, false)]
          else e2
        let full2 :=
          if enhancedResponse ≠ fullAiResponse ∧ disc d (tS + 1) = false then
            enhancedResponse
          else fullAiResponse
        if env.saveAiOk = false then
          innerCatch env uid mid e3 st1 (tS + 2)
        else
          let aiMsg := newMsg st1 env.sessionId "assistant" full2
            { userMessageId := some uid,
              enhanced := some (strContains full2 "*Real-time info"),
              streamed := some true }
          let st2 := addMsg st1 env.sessionId "assistant" full2
            { userMessageId := some uid,
              enhanced := some (strContains full2 "*Real-time info"),
              streamed := some true }
          let e4 := e3 ++
            (if disc d (tS + 2) then [] else [(SseEvent.aiComplete aiMsg mid, false)])
          if env.updateOk = false then
            innerCatch env uid mid e4 st2 (tS + 3)
          else
            { events := e4, store := st2, blockingCalls := 0, endCount := 1 }

/-- `POST /api/chat/sessions/:id/messages/stream` (part_003 lines 71-247).
The route never invokes the blocking completion call, so `blockingCalls` is 0
on every path.  Channel writes are modelled as always succeeding (Node's
`res.write` on a closed socket does not throw), so the write-error catches are
dead and the outer catch's `res.status(500)` fallback is unreachable. -/
def runStream (st0 : Store) (env : StreamEnv) : StreamResult :=
  if env.content = "" ∨ env.role ≠ "user" then
    { events := [outerErrorEvent false], store := st0, blockingCalls := 0, endCount := 1 }
  else
    let d := env.disconnectAt
    let e0 := [(SseEvent.connected, false)]
    if env.filterOk = false then
      { events := e0 ++ [outerErrorEvent (disc d 1)], store := st0,
        blockingCalls := 0, endCount := 1 }
    else if env.saveUserOk = false then
      { events := e0 ++ [outerErrorEvent (disc d 2)], store := st0,
        blockingCalls := 0, endCount := 1 }
    else
      let userMsg := newMsg st0 env.sessionId "user" env.filtered
        { originalLength := some env.content.length }
      let st1 := addMsg st0 env.sessionId "user" env.filtered
        { originalLength := some env.content.length }
      let r := streamBody env userMsg.id ("temp_" ++ toString env.now) st1
      { events := e0 ++
          (if disc d 2 then [] else [(SseEvent.userMessage userMsg, false)]) ++ r.events,
        store := r.store, blockingCalls := r.blockingCalls, endCount := r.endCount }

/-- The events of a result, without the flag instrumentation. -/
def trace (r : StreamResult) : List SseEvent :=
  r.events.map Prod.fst

/-- Concatenation of all `aiChunk` payloads of a trace, in order. -/
def chunkConcat : List SseEvent → String
  | [] => ""
  | SseEvent.aiChunk c _ :: rest => c ++ chunkConcat rest
  | _ :: rest => chunkConcat rest

/-- The messages carried by the `aiComplete` events of a trace, in order. -/
def aiCompleteMsgs : List SseEvent → List ChatMessage
  | [] => []
  | SseEvent.aiComplete m _ :: rest => m :: aiCompleteMsgs rest
  | _ :: rest => aiCompleteMsgs rest

/-- Number of `done` events in a trace. -/
def countDone : List SseEvent → Nat
  | [] => 0
  | SseEvent.done :: rest => 1 + countDone rest
  | _ :: rest => countDone rest

/- ## Segment lemmas for the stream trace -/

lemma disc_none (t : Nat) : disc none t = false := rfl

lemma chunkEvs_none (mid : String) (cs : List String) (t : Nat) :
    chunkEvs none mid cs t = cs.map fun c => (SseEvent.aiChunk c mid, false) := by
  induction cs generalizing t with
  | nil => rfl
  | cons c rest ih => simp [chunkEvs, disc, ih]

lemma chunkConcat_append (l1 l2 : List SseEvent) :
    chunkConcat (l1 ++ l2) = chunkConcat l1 ++ chunkConcat l2 := by
  induction l1 with
  | nil => rfl
  | cons e rest ih => cases e <;> simp [chunkConcat, ih, strAppend_assoc]

lemma chunkConcat_map (cs : List String) (mid : String) :
    chunkConcat (cs.map fun c => SseEvent.aiChunk c mid) = strJoin cs := by
  induction cs with
  | nil => rfl
  | cons c rest ih => simp [chunkConcat, strJoin, ih]

lemma aiCompleteMsgs_append (l1 l2 : List SseEvent) :
    aiCompleteMsgs (l1 ++ l2) = aiCompleteMsgs l1 ++ aiCompleteMsgs l2 := by
  induction l1 with
  | nil => rfl
  | cons e rest ih => cases e <;> simp [aiCompleteMsgs, ih]

lemma aiCompleteMsgs_map_chunk (cs : List String) (mid : String) :
    aiCompleteMsgs (cs.map fun c => SseEvent.aiChunk c mid) = [] := by
  induction cs with
  | nil => rfl
  | cons c rest ih => simp [aiCompleteMsgs, ih]

lemma map_fst_chunkPair (cs : List String) (mid : String) :
    List.map (Prod.fst ∘ fun c => (SseEvent.aiChunk c mid, false)) cs =
      cs.map fun c => SseEvent.aiChunk c mid := by
  induction cs with
  | nil => rfl
  | cons c rest ih =>
    rw [List.map_cons, List.map_cons, ih]
    rfl

/-- Claim C1: for every streaming turn that completes successfully (no
disconnect, every collaborator call succeeds), the concatenation of all
`aiChunk` payloads in emission order — including the extra enrichment chunk
when enrichment changed the text — equals the `content` of the assistant
ChatMessage that is persisted and carried by the (unique) `aiComplete` event. -/
theorem stream_chunks_concat (st0 : Store) (env : StreamEnv)
    (hc : env.content ≠ "") (hr : env.role = "user") (hd : env.disconnectAt = none)
    (h1 : env.filterOk = true) (h2 : env.saveUserOk = true) (h3 : env.historyOk = true)
    (h4 : env.streamOk = true) (h5 : env.enrichOk = true) (h6 : env.saveAiOk = true)
    (h7 : env.updateOk = true) :
    ∃ m, aiCompleteMsgs (trace (runStream st0 env)) = [m] ∧
      m ∈ (runStream st0 env).store.msgs ∧
      m.role = "assistant" ∧
      chunkConcat (trace (runStream st0 env)) = m.content := by
  have hval : ¬ (env.content = "" ∨ env.role ≠ "user") := by simp [hc, hr]
  by_cases hsuf : env.enrichSuffix = ""
  · have heq : strJoin env.chunks ++ env.enrichSuffix = strJoin env.chunks := by
      rw [hsuf]
      exact strAppend_empty _
    refine ⟨⟨st0.nextId + 1, env.sessionId, "assistant",
      generateSarcasticResponseStream env.chunks,
      { userMessageId := some st0.nextId,
        enhanced := some (strContains (generateSarcasticResponseStream env.chunks)
          "*Real-time info"),
        streamed := some true }⟩, ?_, ?_, rfl, ?_⟩ <;>
      simp [runStream, streamBody, hval, hd, h1, h2, h3, h4, h5, h6, h7, disc_none, chunkEvs_none,
        heq, trace, map_fst_chunkPair, aiCompleteMsgs_append, aiCompleteMsgs, aiCompleteMsgs_map_chunk,
        chunkConcat_append, chunkConcat, chunkConcat_map, addMsg, newMsg,
        enhanceResponseWithWebData, generateSarcasticResponseStream, strAppend_empty]
  · have hne : ¬ (strJoin env.chunks ++ env.enrichSuffix = strJoin env.chunks) := by
      intro h
      exact hsuf ((strAppend_right_eq_self _ _).mp h)
    refine ⟨⟨st0.nextId + 1, env.sessionId, "assistant",
      generateSarcasticResponseStream env.chunks ++ env.enrichSuffix,
      { userMessageId := some st0.nextId,
        enhanced := some (strContains
          (generateSarcasticResponseStream env.chunks ++ env.enrichSuffix)
          "*Real-time info"),
        streamed := some true }⟩, ?_, ?_, rfl, ?_⟩ <;>
      simp [runStream, streamBody, hval, hd, h1, h2, h3, h4, h5, h6, h7, disc_none, chunkEvs_none,
        hne, trace, map_fst_chunkPair, aiCompleteMsgs_append, aiCompleteMsgs, aiCompleteMsgs_map_chunk,
        chunkConcat_append, chunkConcat, chunkConcat_map, addMsg, newMsg,
        enhanceResponseWithWebData, generateSarcasticResponseStream,
        jsReplaceEmpty_append, strAppend_empty]

/-- Store for the C1 witness. -/
def c1wStore : Store := ⟨[], 0⟩

/-- Successful streaming turn with two provider chunks and a nonempty
enrichment suffix, for the C1 witness. -/
def c1wEnv : StreamEnv :=
  { sessionId := "s", content := "hi", role := "user", now := 0, disconnectAt := none,
    filterOk := true, filtered := "hi", saveUserOk := true, historyOk := true,
    chunks := ["Hel", "lo"], streamOk := true, enrichOk := true, enrichSuffix := " world",
    saveAiOk := true, updateOk := true, saveErrOk := true }

/-- Witness for C1 at a concrete successful turn (chunks "Hel","lo" plus the
enrichment chunk " world"; the persisted content is "Hello world"). -/
theorem stream_chunks_concat_witness :
    ∃ m, aiCompleteMsgs (trace (runStream c1wStore c1wEnv)) = [m] ∧
      m ∈ (runStream c1wStore c1wEnv).store.msgs ∧
      m.role = "assistant" ∧
      chunkConcat (trace (runStream c1wStore c1wEnv)) = m.content :=
  stream_chunks_concat c1wStore c1wEnv (by decide) rfl rfl rfl rfl rfl rfl rfl rfl rfl

/-- Store for the C4 counterexample. -/
def c4Store : Store := ⟨[], 0⟩

/-- Environment in which the streaming call fails before yielding any chunk. -/
def c4Env : StreamEnv :=
  { sessionId := "s", content := "hi", role := "user", now := 0, disconnectAt := none,
    filterOk := true, filtered := "hi", saveUserOk := true, historyOk := true,
    chunks := [], streamOk := false, enrichOk := true, enrichSuffix := "",
    saveAiOk := true, updateOk := true, saveErrOk := true }

/-- Claim C4 counterexample: when the streaming call fails before yielding any
chunk, the stream route makes no fallback attempt with the blocking call at
all — the number of blocking completion calls is 0, not the exactly-one the
claim requires. -/
theorem stream_blocking_fallback_cex :
    c4Env.chunks = [] ∧ c4Env.streamOk = false ∧
      (runStream c4Store c4Env).blockingCalls = 0 ∧
      ¬ (runStream c4Store c4Env).blockingCalls = 1 := by decide

/-- Claim C4 as amended: if the streaming call fails before yielding any chunk
(with the client still connected and the error-row persist succeeding), the
Relay makes no fallback attempt with the blocking call; the turn persists
exactly one assistant message — the fixed error-text row — and emits exactly
one `aiComplete` event carrying it. -/
theorem stream_failure_single_error_message (st0 : Store) (env : StreamEnv)
    (hc : env.content ≠ "") (hr : env.role = "user") (hd : env.disconnectAt = none)
    (h1 : env.filterOk = true) (h2 : env.saveUserOk = true) (h3 : env.historyOk = true)
    (hch : env.chunks = []) (h4 : env.streamOk = false) (h5 : env.saveErrOk = true) :
    (runStream st0 env).blockingCalls = 0 ∧
    ∃ m, aiCompleteMsgs (trace (runStream st0 env)) = [m] ∧
      (runStream st0 env).store.msgs = st0.msgs ++
        [newMsg st0 env.sessionId "user" env.filtered
          { originalLength := some env.content.length }, m] ∧
      m.role = "assistant" ∧ m.content = streamErrorText ∧
      m.metadata.error = some true := by
  have hval : ¬ (env.content = "" ∨ env.role ≠ "user") := by simp [hc, hr]
  refine ⟨?_, ⟨st0.nextId + 1, env.sessionId, "assistant", streamErrorText,
    { error := some true, userMessageId := some st0.nextId }⟩, ?_, ?_, rfl, rfl, rfl⟩ <;>
    simp [runStream, streamBody, innerCatch, hval, hd, h1, h2, h3, h4, h5, hch, disc_none, chunkEvs,
      trace, aiCompleteMsgs_append, aiCompleteMsgs, addMsg, newMsg]

/-- Store for the C4 witness. -/
def c4wStore : Store := ⟨[], 0⟩

/-- Environment for the C4 witness: streaming fails before any chunk. -/
def c4wEnv : StreamEnv :=
  { sessionId := "s", content := "hey", role := "user", now := 0, disconnectAt := none,
    filterOk := true, filtered := "hey", saveUserOk := true, historyOk := true,
    chunks := [], streamOk := false, enrichOk := true, enrichSuffix := "",
    saveAiOk := true, updateOk := true, saveErrOk := true }

/-- Witness for the amended C4 at a concrete environment. -/
theorem stream_failure_single_error_message_witness :
    (runStream c4wStore c4wEnv).blockingCalls = 0 ∧
    ∃ m, aiCompleteMsgs (trace (runStream c4wStore c4wEnv)) = [m] ∧
      (runStream c4wStore c4wEnv).store.msgs = c4wStore.msgs ++
        [newMsg c4wStore "s" "user" "hey" { originalLength := some 3 }, m] ∧
      m.role = "assistant" ∧ m.content = streamErrorText ∧
      m.metadata.error = some true :=
  stream_failure_single_error_message c4wStore c4wEnv (by decide) rfl rfl rfl rfl rfl rfl
    rfl rfl

/-- Store for the C9 exhibit. -/
def c9Store : Store := ⟨[], 0⟩

/-- Environment in which every step of a streaming turn succeeds except the
final session-timestamp update. -/
def c9Env : StreamEnv :=
  { sessionId := "s", content := "hi", role := "user", now := 0, disconnectAt := none,
    filterOk := true, filtered := "hi", saveUserOk := true, historyOk := true,
    chunks := ["Hello"], streamOk := true, enrichOk := true, enrichSuffix := "",
    saveAiOk := true, updateOk := false, saveErrOk := true }

/-- Claim C9 exhibit: when `storage.updateChatSession` throws after the
assistant message was persisted and its `aiComplete` emitted, the inner catch
— whose flag is still unset — persists a second, error-text assistant row and
emits a second `aiComplete`: two assistant messages persisted for one turn. -/
theorem stream_duplicate_assistant_on_update_failure :
    (runStream c9Store c9Env).store.msgs.length = 3 ∧
      countAssistant (runStream c9Store c9Env).store = 2 ∧
      (aiCompleteMsgs (trace (runStream c9Store c9Env))).length = 2 := by decide

/- ## Terminal-flag discipline of the stream route (C2) -/

/-- The event kinds the route writes without a flag check immediately before
the write: the outer catch's `error` event, and the inner catch's error
`aiComplete` (its flag check precedes the error-row persist, not the write). -/
def flaggedWriteOk : SseEvent → Bool
  | SseEvent.error _ => true
  | SseEvent.aiComplete m _ => m.metadata.error == some true
  | _ => false

/-- A channel write respects the terminal flag if the flag was unset at the
instant of the write, or the event is one of the two unguarded kinds. -/
def writeOkAfterFlag (p : SseEvent × Bool) : Bool :=
  !p.2 || flaggedWriteOk p.1

lemma chunkEvs_all_writeOk (d : Option Nat) (mid : String) (cs : List String) (t : Nat) :
    ((chunkEvs d mid cs t).all writeOkAfterFlag) = true := by
  induction cs generalizing t with
  | nil => rfl
  | cons c rest ih =>
    cases hdt : disc d t <;>
      simp [chunkEvs, hdt, ih, writeOkAfterFlag, flaggedWriteOk]

lemma innerCatch_all_writeOk (env : StreamEnv) (uid : Nat) (mid : String)
    (evs : List (SseEvent × Bool)) (st : Store) (tErr : Nat)
    (h : (evs.all writeOkAfterFlag) = true) :
    (((innerCatch env uid mid evs st tErr).events).all writeOkAfterFlag) = true := by
  rw [innerCatch]
  split_ifs <;>
    simp [h, writeOkAfterFlag, flaggedWriteOk, outerErrorEvent, newMsg]

/-- Store for the C2 counterexample. -/
def c2Store : Store := ⟨[], 0⟩

/-- The client disconnects immediately, then the personal-information filter
throws into the outer catch. -/
def c2Env : StreamEnv :=
  { sessionId := "s", content := "hi", role := "user", now := 0, disconnectAt := some 0,
    filterOk := false, filtered := "hi", saveUserOk := true, historyOk := true,
    chunks := [], streamOk := true, enrichOk := true, enrichSuffix := "",
    saveAiOk := true, updateOk := true, saveErrOk := true }

/-- Claim C2 counterexample: after the terminal flag is set by a client
disconnect, an error escaping to the outer catch is still written to the
channel — the outer catch performs no flag check, so not every subsequent
write attempt checks the flag first. -/
theorem no_write_after_terminal_cex :
    ((runStream c2Store c2Env).events.all fun p => !p.2) = false := by decide


/-- The writes the route can still issue once the terminal stretch is reached:
nothing, or at most two `aiComplete`, then at most one trailing `error`. -/
def shapeTail2 : List SseEvent → Bool
  | [] => true
  | [SseEvent.error _] => true
  | _ => false

/-- After one `aiComplete`: at most one more `aiComplete`, then `error?`. -/
def shapeTail : List SseEvent → Bool
  | SseEvent.aiComplete _ _ :: rest => shapeTail2 rest
  | l => shapeTail2 l

/-- After the chunk stretch: at most two `aiComplete`, then `error?`. -/
def shapeAfterChunks : List SseEvent → Bool
  | SseEvent.aiComplete _ _ :: rest => shapeTail rest
  | l => shapeTail2 l

/-- Zero or more `aiChunk`, then the completion stretch. -/
def shapeChunks : List SseEvent → Bool
  | SseEvent.aiChunk _ _ :: rest => shapeChunks rest
  | l => shapeAfterChunks l

/-- At most one `userMessage`, then chunks, then completion. -/
def shapeUser : List SseEvent → Bool
  | SseEvent.userMessage _ :: rest => shapeChunks rest
  | l => shapeChunks l

/-- The event order of one valid streaming turn: `connected`, at most one
`userMessage`, zero or more `aiChunk`, at most two `aiComplete`, at most one
trailing `error` — and never a `done` event. -/
def shapeOk : List SseEvent → Bool
  | SseEvent.connected :: rest => shapeUser rest
  | _ => false

lemma shapeChunks_chunkPart (d : Option Nat) (mid : String) (cs : List String) (t : Nat)
    (l : List SseEvent) :
    shapeChunks ((chunkEvs d mid cs t).map Prod.fst ++ l) = shapeChunks l := by
  induction cs generalizing t with
  | nil => rfl
  | cons c rest ih =>
    cases hdt : disc d t <;> simp [chunkEvs, hdt, shapeChunks, ih]

lemma shapeChunks_chunkPart_nil (d : Option Nat) (mid : String) (cs : List String)
    (t : Nat) :
    shapeChunks ((chunkEvs d mid cs t).map Prod.fst) = true := by
  have h := shapeChunks_chunkPart d mid cs t []
  simpa using h

lemma shapeUser_of_shapeChunks (l : List SseEvent) (h : shapeChunks l = true) :
    shapeUser l = true := by
  cases l with
  | nil => rfl
  | cons e rest =>
    cases e <;> simp_all [shapeUser, shapeChunks, shapeAfterChunks, shapeTail, shapeTail2]

lemma shapeChunks_innerCatch (env : StreamEnv) (uid : Nat) (mid : String)
    (evs : List (SseEvent × Bool)) (st : Store) (tErr : Nat)
    (h0 : shapeChunks (evs.map Prod.fst) = true)
    (h1 : ∀ s, shapeChunks (evs.map Prod.fst ++ [SseEvent.error s]) = true)
    (h2 : ∀ m, shapeChunks (evs.map Prod.fst ++ [SseEvent.aiComplete m mid]) = true) :
    shapeChunks ((innerCatch env uid mid evs st tErr).events.map Prod.fst) = true := by
  rw [innerCatch]
  split_ifs
  · exact h0
  · simpa [outerErrorEvent] using h1 "Failed to process streaming message"
  · simpa using h2 (newMsg st env.sessionId "assistant" streamErrorText
      { error := some true, userMessageId := some uid })

lemma streamBody_events_ok (env : StreamEnv) (uid : Nat) (mid : String) (st1 : Store) :
    ((streamBody env uid mid st1).events.all writeOkAfterFlag) = true ∧
      shapeChunks ((streamBody env uid mid st1).events.map Prod.fst) = true := by
  simp only [streamBody]
  split_ifs <;> constructor <;>
    first
      | (refine innerCatch_all_writeOk _ _ _ _ _ _ ?_
         simp [List.all_append, chunkEvs_all_writeOk, writeOkAfterFlag, flaggedWriteOk]
         done)
      | (refine shapeChunks_innerCatch _ _ _ _ _ _ ?_ ?_ ?_ <;>
           (intros
            simp [List.map_append, List.append_assoc, shapeChunks_chunkPart,
              shapeChunks_chunkPart_nil, shapeChunks, shapeAfterChunks, shapeTail,
              shapeTail2])
         done)
      | (simp [List.all_append, chunkEvs_all_writeOk, writeOkAfterFlag, flaggedWriteOk,
          outerErrorEvent]
         done)
      | (simp [outerErrorEvent, List.map_append, List.append_assoc, shapeChunks_chunkPart,
          shapeChunks_chunkPart_nil, shapeChunks, shapeAfterChunks, shapeTail, shapeTail2]
         done)

lemma streamBody_all_writeOk (env : StreamEnv) (uid : Nat) (mid : String) (st1 : Store) :
    ((streamBody env uid mid st1).events.all writeOkAfterFlag) = true :=
  (streamBody_events_ok env uid mid st1).1

lemma streamBody_shapeChunks (env : StreamEnv) (uid : Nat) (mid : String) (st1 : Store) :
    shapeChunks ((streamBody env uid mid st1).events.map Prod.fst) = true :=
  (streamBody_events_ok env uid mid st1).2

lemma all_writeOk_guard (e : SseEvent) (b : Bool) :
    ((if b then ([] : List (SseEvent × Bool)) else [(e, false)]).all writeOkAfterFlag) =
      true := by
  cases b <;> simp [writeOkAfterFlag]

lemma runStream_events_ok (st0 : Store) (env : StreamEnv)
    (hval : ¬ (env.content = "" ∨ env.role ≠ "user")) :
    ((runStream st0 env).events.all writeOkAfterFlag) = true ∧
      shapeOk (trace (runStream st0 env)) = true := by
  simp only [runStream]
  rw [if_neg hval]
  by_cases hf : env.filterOk = false
  · rw [if_pos hf]
    exact ⟨by simp [writeOkAfterFlag, flaggedWriteOk, outerErrorEvent],
      by simp [trace, shapeOk, shapeUser, shapeChunks, shapeAfterChunks, shapeTail,
        shapeTail2, outerErrorEvent]⟩
  · rw [if_neg hf]
    by_cases hsu : env.saveUserOk = false
    · rw [if_pos hsu]
      exact ⟨by simp [writeOkAfterFlag, flaggedWriteOk, outerErrorEvent],
        by simp [trace, shapeOk, shapeUser, shapeChunks, shapeAfterChunks, shapeTail,
          shapeTail2, outerErrorEvent]⟩
    · rw [if_neg hsu]
      constructor
      · simp [List.all_append, all_writeOk_guard, streamBody_all_writeOk, writeOkAfterFlag]
      · cases hd2 : disc env.disconnectAt 2
        · simp [hd2, trace, List.map_append, shapeOk, shapeUser, streamBody_shapeChunks]
        · simp [hd2, trace, List.map_append, shapeOk, shapeUser_of_shapeChunks,
            streamBody_shapeChunks]

/-- Claim C2 as amended: every `userMessage`, `aiChunk` and success-path
`aiComplete` write checks the terminal flag immediately before writing and is
a no-op when the flag is set; the only writes that can occur after the flag is
set are the outer catch's `error` event (written with no flag check) and the
inner catch's error `aiComplete` (whose flag check precedes the error-row
persist rather than the write). -/
theorem write_after_terminal_only_unguarded (st0 : Store) (env : StreamEnv) :
    ((runStream st0 env).events.all writeOkAfterFlag) = true := by
  by_cases hval : env.content = "" ∨ env.role ≠ "user"
  · simp only [runStream]
    rw [if_pos hval]
    rfl
  · exact (runStream_events_ok st0 env hval).1

/-- Store for the C3 counterexample. -/
def c3Store : Store := ⟨[], 0⟩

/-- A fully successful valid streaming turn for the C3 counterexample. -/
def c3Env : StreamEnv :=
  { sessionId := "s", content := "hi", role := "user", now := 0, disconnectAt := none,
    filterOk := true, filtered := "hi", saveUserOk := true, historyOk := true,
    chunks := ["a"], streamOk := true, enrichOk := true, enrichSuffix := "",
    saveAiOk := true, updateOk := true, saveErrOk := true }

/-- Claim C3 counterexample: a fully successful valid turn emits zero `done`
events — the route closes the channel with `res.end()` and never writes a
`done` event — refuting "then `done`, with exactly one terminal `done` event
per turn". -/
theorem stream_done_event_cex :
    countDone (trace (runStream c3Store c3Env)) = 0 ∧
      ¬ countDone (trace (runStream c3Store c3Env)) = 1 := by decide

/-- Claim C3 as amended: for every valid streaming turn, on every success,
failure and disconnect path, the channel events appear in the order
`connected`, then at most one `userMessage`, then zero or more `aiChunk`, then
at most two `aiComplete` (two only when a failure strikes after the normal
`aiComplete` was emitted), then at most one trailing `error`; no `done` event
is ever emitted — termination is signalled by closing the channel instead. -/
theorem stream_event_order (st0 : Store) (env : StreamEnv)
    (hc : env.content ≠ "") (hr : env.role = "user") :
    shapeOk (trace (runStream st0 env)) = true :=
  (runStream_events_ok st0 env (by simp [hc, hr])).2

/-- Store for the C3 witness. -/
def c3wStore : Store := ⟨[], 0⟩

/-- A valid streaming turn (with enrichment chunk) for the C3 witness. -/
def c3wEnv : StreamEnv :=
  { sessionId := "s", content := "hi", role := "user", now := 0, disconnectAt := none,
    filterOk := true, filtered := "hi", saveUserOk := true, historyOk := true,
    chunks := ["a", "b"], streamOk := true, enrichOk := true, enrichSuffix := "!",
    saveAiOk := true, updateOk := true, saveErrOk := true }

/-- Witness for the amended C3 at a concrete valid turn. -/
theorem stream_event_order_witness :
    shapeOk (trace (runStream c3wStore c3wEnv)) = true :=
  stream_event_order c3wStore c3wEnv (by decide) rfl
